import Mathlib

/-
Verification of the image-generation fallback scripts in
server/ai (multi-model-image.py, genai-image.py, generate_image.py,
imagen-generate.py).

The Python scripts are shallowly embedded: pure computations (dimension
lookup, palette selection, truncation, gradient arithmetic) become Lean
functions translated line by line from the source; the external world
(environment variables, HTTP calls, the PIL drawing step) is passed in
explicitly as data (`Option String` for an environment variable, an
outcome value per backend attempt, an `Except` for a step that may throw).
Python float arithmetic in the gradient is rendered over `ℚ` with `int`
modelled as truncation toward zero; Python string indexing, `len` and
slicing operate on code points, matching Lean `String` characters.
-/

/-! ## Shared basic helpers (Python semantics) -/

/-- Python truthiness of an optional string: `None` and `""` are falsy
(`os.environ.get` returns `None` when the variable is unset). -/
def is_truthy : Option String → Bool
  | none => false
  | some s => s ≠ ""

/-- Python `a or b` on two optional strings (used for chained
`os.environ.get(...) or os.environ.get(...)` credential lookups). -/
def py_or_opt (a b : Option String) : Option String :=
  match a with
  | some s => if s = "" then b else some s
  | none => b

/-- Python `a or b` where `a` is an optional string and `b` a string
(used for `last_error or str(fallback_error)` in genai-image.py). -/
def py_or_str (a : Option String) (b : String) : String :=
  match a with
  | some s => if s = "" then b else s
  | none => b

/-- Lowercasing of a string, character by character, as Python
`str.lower` does on the ASCII prompts involved here. -/
def str_lower (s : String) : String := String.mk (s.data.map Char.toLower)

/-- Whether the first list is a contiguous prefix of the second. -/
def starts_with : List Char → List Char → Bool
  | [], _ => true
  | _ :: _, [] => false
  | c :: cs, d :: ds => c == d && starts_with cs ds

/-- Whether `needle` occurs contiguously anywhere in the haystack. -/
def py_in_list (needle : List Char) : List Char → Bool
  | [] => needle.isEmpty
  | c :: rest => starts_with needle (c :: rest) || py_in_list needle rest

/-- Python `needle in haystack` substring containment on strings. -/
def py_in (needle haystack : String) : Bool := py_in_list needle.data haystack.data

/-! ## Data model: results produced by the scripts

All four scripts print a JSON dictionary; the union of the fields they
emit is collected in one record, absent fields being `none`.  Image
bytes are kept raw (the scripts base64-encode them only for transport). -/

/-- The result dictionary a script's generate function returns.
Fields map one-to-one onto the keys of the Python result dicts. -/
structure GenResult where
  success : Bool
  image_data : Option (List Nat)
  mime_type : Option String
  description : Option String
  prompt : String
  aspect_ratio : Option String
  model : Option String
  note : Option String
  error : Option String
deriving DecidableEq

/-! ## Aspect-ratio dimension table (multi-model-image.py lines 20-27)

The Python dict literal `aspect_map` and the `dict.get` call with default
`(1024, 576)` are embedded as an association list plus defaulted lookup. -/

/-- The `aspect_map` dict of create_ai_styled_image. -/
def aspect_map : List (String × (Nat × Nat)) :=
  [("1:1", (1024, 1024)),
   ("16:9", (1024, 576)),
   ("9:16", (576, 1024)),
   ("4:3", (1024, 768)),
   ("3:4", (768, 1024))]

/-- `aspect_map.get(aspect_ratio, (1024, 576))`: the dimension pair used
by placeholder synthesis. -/
def aspect_dims (aspect_ratio : String) : Nat × Nat :=
  (aspect_map.lookup aspect_ratio).getD (1024, 576)

/-! ## DALL-E size selection (multi-model-image.py line 202) -/

/-- The `size` field sent to the DALL-E API:
`"1024x1024" if aspect_ratio == "1:1" else "1792x1024"`. -/
def dalle_size (aspect_ratio : String) : String :=
  if aspect_ratio = "1:1" then "1024x1024" else "1792x1024"

/-! ## Subtitle truncation (multi-model-image.py line 160,
genai-image.py line 198) -/

/-- Python `s[:n]`: the first `n` code points of the string. -/
def py_slice (s : String) (n : Nat) : String := String.mk (s.data.take n)

/-- `prompt[:80] + "..." if len(prompt) > 80 else prompt`
(multi-model-image.py). -/
def prompt_display (prompt : String) : String :=
  if prompt.length > 80 then py_slice prompt 80 ++ "..." else prompt

/-- `prompt[:60] + "..." if len(prompt) > 60 else prompt`
(genai-image.py, its gradient fallback text overlay). -/
def prompt_text (prompt : String) : String :=
  if prompt.length > 60 then py_slice prompt 60 ++ "..." else prompt

/-! ## Palette selection (multi-model-image.py lines 29-60) -/

/-- An RGB colour triple. -/
structure RGB where
  r : Nat
  g : Nat
  b : Nat
deriving DecidableEq

/-- The three base colours and the accent colour selected from the
prompt. -/
structure Palette where
  base0 : RGB
  base1 : RGB
  base2 : RGB
  accent : RGB
deriving DecidableEq

/-- The tech/robot palette (first branch of the keyword scan). -/
def tech_palette : Palette :=
  ⟨⟨0, 100, 200⟩, ⟨0, 200, 255⟩, ⟨100, 150, 255⟩, ⟨0, 255, 200⟩⟩

/-- The keyword scan of create_ai_styled_image: lowercase the prompt,
then test the keyword groups in source order; first match wins. -/
def select_palette (prompt : String) : Palette :=
  let prompt_lower := str_lower prompt
  if py_in "robot" prompt_lower || py_in "ai" prompt_lower || py_in "tech" prompt_lower then
    tech_palette
  else if py_in "office" prompt_lower || py_in "work" prompt_lower then
    ⟨⟨100, 120, 140⟩, ⟨150, 170, 190⟩, ⟨200, 210, 220⟩, ⟨70, 130, 180⟩⟩
  else if py_in "nature" prompt_lower || py_in "forest" prompt_lower || py_in "tree" prompt_lower then
    ⟨⟨34, 139, 34⟩, ⟨60, 179, 113⟩, ⟨144, 238, 144⟩, ⟨255, 215, 0⟩⟩
  else if py_in "sunset" prompt_lower || py_in "sunrise" prompt_lower then
    ⟨⟨255, 94, 77⟩, ⟨255, 140, 90⟩, ⟨255, 190, 130⟩, ⟨147, 112, 219⟩⟩
  else if py_in "ocean" prompt_lower || py_in "water" prompt_lower || py_in "sea" prompt_lower then
    ⟨⟨0, 119, 190⟩, ⟨0, 150, 199⟩, ⟨72, 202, 228⟩, ⟨255, 255, 200⟩⟩
  else
    ⟨⟨102, 126, 234⟩, ⟨118, 75, 162⟩, ⟨237, 117, 130⟩, ⟨255, 200, 100⟩⟩

/-! ## Gradient background (multi-model-image.py lines 62-77)

Python float arithmetic over `ℚ`; `int(...)` is truncation toward zero
(the values involved are nonnegative, so this coincides with the floor). -/

/-- Python `int(q)`: truncation toward zero. -/
def py_int (q : ℚ) : Int := if q < 0 then -Int.floor (-q) else Int.floor q

/-- One scanline of the gradient background, translated directly from the
body of the `for y in range(height)` loop: `progress = y / height`; below
one half blend `base0 → base1` at `ratio = progress * 2`, otherwise blend
`base1 → base2` at `ratio = (progress - 0.5) * 2`, each channel through
`int`. -/
def gradient_row (p : Palette) (height y : Nat) : Int × Int × Int :=
  let progress : ℚ := (y : ℚ) / (height : ℚ)
  if progress < 1 / 2 then
    let ratio : ℚ := progress * 2
    (py_int ((p.base0.r : ℚ) * (1 - ratio) + (p.base1.r : ℚ) * ratio),
     py_int ((p.base0.g : ℚ) * (1 - ratio) + (p.base1.g : ℚ) * ratio),
     py_int ((p.base0.b : ℚ) * (1 - ratio) + (p.base1.b : ℚ) * ratio))
  else
    let ratio : ℚ := (progress - 1 / 2) * 2
    (py_int ((p.base1.r : ℚ) * (1 - ratio) + (p.base2.r : ℚ) * ratio),
     py_int ((p.base1.g : ℚ) * (1 - ratio) + (p.base2.g : ℚ) * ratio),
     py_int ((p.base1.b : ℚ) * (1 - ratio) + (p.base2.b : ℚ) * ratio))

/-- The blend of colour `c` toward colour `d` at ratio `t`, each channel
truncated to an integer — the formula in the spec's words. -/
def spec_blend (c d : RGB) (t : ℚ) : Int × Int × Int :=
  (py_int ((c.r : ℚ) * (1 - t) + (d.r : ℚ) * t),
   py_int ((c.g : ℚ) * (1 - t) + (d.g : ℚ) * t),
   py_int ((c.b : ℚ) * (1 - t) + (d.b : ℚ) * t))

/-- The spec's description of a scanline: with progress `p = y/height`,
if `p < 0.5` the blend of base0 toward base1 at ratio `2p`, otherwise the
blend of base1 toward base2 at ratio `2(p - 0.5)`. -/
def spec_row (pal : Palette) (height y : Nat) : Int × Int × Int :=
  let p : ℚ := (y : ℚ) / (height : ℚ)
  if p < 1 / 2 then spec_blend pal.base0 pal.base1 (2 * p)
  else spec_blend pal.base1 pal.base2 (2 * (p - 1 / 2))

/-! ## The ordered backend chain of genai-image.py (lines 56-113)

Each model attempt is represented by its observable outcome: the call
raised an exception carrying a message, or it returned a response whose
image part is either absent or present with a mime type and bytes. -/

/-- Outcome of one `client.models.generate_content` attempt. -/
inductive Outcome where
  | raises (err : String)
  | response (image : Option (String × List Nat))
deriving DecidableEq

/-- A backend attempt that does not yield an image: it raises, or its
response has no image part. -/
def backend_fails : Outcome → Bool
  | Outcome.raises _ => true
  | Outcome.response none => true
  | Outcome.response (some _) => false

/-- What the `for model_name in model_options` loop produced: the
returned success result if some model yielded an image, the value of
`last_error` when the loop ended or returned, and the names invoked. -/
structure ChainOut where
  result : Option GenResult
  last_error : Option String
  invoked : List String
deriving DecidableEq

/-- The model-options loop of generate_image_with_genai: on an exception
record it in `last_error` and continue; on a response without an image
part continue; on an image part return the success dict naming the
current model. -/
def run_chain (prompt aspect_ratio : String) (lastError : Option String) :
    List (String × Outcome) → ChainOut
  | [] => { result := none, last_error := lastError, invoked := [] }
  | (model_name, o) :: rest =>
    match o with
    | Outcome.raises e =>
      let out := run_chain prompt aspect_ratio (some e) rest
      { out with invoked := model_name :: out.invoked }
    | Outcome.response none =>
      let out := run_chain prompt aspect_ratio lastError rest
      { out with invoked := model_name :: out.invoked }
    | Outcome.response (some (mime, data)) =>
      { result := some { success := true, image_data := some data,
                         mime_type := some mime, description := none,
                         prompt := prompt, aspect_ratio := some aspect_ratio,
                         model := some model_name, note := none, error := none },
        last_error := lastError, invoked := [model_name] }

/-- The whole of generate_image_with_genai (genai-image.py lines 27-236):
resolve the API key with Python `or` truthiness (a missing key raises a
ValueError that the outer `except` converts to a failure dict), run the
model chain, and on exhaustion run the gradient-fallback block, whose
outcome (the Gemini colour call plus PIL drawing, which may throw) is
passed in as `fallback`. -/
def generate_image_with_genai (vertex_key gcloud_key gemini_key : Option String)
    (chain : List (String × Outcome)) (fallback : Except String (List Nat))
    (prompt aspect_ratio : String) : GenResult :=
  let api_key := py_or_opt vertex_key (py_or_opt gcloud_key gemini_key)
  if is_truthy api_key = false then
    { success := false, image_data := none, mime_type := none, description := none,
      prompt := prompt, aspect_ratio := none, model := none, note := none,
      error := some "No API key found. Please set VERTEX_API_KEY, GOOGLE_CLOUD_API_KEY, or GEMINI_API_KEY" }
  else
    let out := run_chain prompt aspect_ratio none chain
    match out.result with
    | some r => r
    | none =>
      match fallback with
      | Except.ok image_data =>
        { success := true, image_data := some image_data,
          mime_type := some "image/png", description := none,
          prompt := prompt, aspect_ratio := some aspect_ratio,
          model := some "fallback-gradient",
          note := some "Using fallback gradient due to API limitations",
          error := none }
      | Except.error fallback_error =>
        { success := false, image_data := none, mime_type := none,
          description := none, prompt := prompt, aspect_ratio := none,
          model := none, note := none,
          error := some ("All generation methods failed. Last error: " ++
                         py_or_str out.last_error fallback_error) }

/-! ## multi-model-image.py: generate_image and main (lines 179-267)

The DALL-E attempt's observable outcome collapses the HTTP interaction
to its three control-flow effects in the source: an exception in the
inner `try` (caught, printed to stderr, falls through), a response that
yields no downloadable image (non-200 status, empty data list, or failed
download — all fall through), or downloaded image bytes (returned). -/

/-- Observable outcome of the DALL-E attempt block. -/
inductive DalleOutcome where
  | raises (err : String)
  | noImage
  | image (data : List Nat)
deriving DecidableEq

/-- Which external steps a run actually performed: the backends invoked
and whether the local placeholder synthesis was attempted. -/
structure Trace where
  backend_calls : List String
  synth_attempted : Bool
deriving DecidableEq

/-- generate_image of multi-model-image.py: when OPENAI_API_KEY is
truthy try DALL-E 3 and return its image on success; otherwise (or on
any DALL-E failure) fall back to create_ai_styled_image, whose result —
PNG bytes, or the message of the exception it raised — is passed in as
`synth`; an exception there is caught by the outer `except`, which
returns the failure dict. -/
def mm_generate_image (openai_key : Option String) (dalle : DalleOutcome)
    (synth : Except String (List Nat)) (prompt aspect_ratio : String) :
    GenResult × Trace :=
  let styled : Trace → GenResult × Trace := fun t =>
    match synth with
    | Except.ok image_data =>
      ({ success := true, image_data := some image_data,
         mime_type := some "image/png", description := none,
         prompt := prompt, aspect_ratio := some aspect_ratio,
         model := some "ai-styled-generator",
         note := some "Generated using AI-styled image creator",
         error := none },
       { t with synth_attempted := true })
    | Except.error e =>
      ({ success := false, image_data := none, mime_type := none,
         description := none, prompt := prompt, aspect_ratio := none,
         model := none, note := none, error := some e },
       { t with synth_attempted := true })
  if is_truthy openai_key then
    match dalle with
    | DalleOutcome.image data =>
      ({ success := true, image_data := some data,
         mime_type := some "image/png", description := none,
         prompt := prompt, aspect_ratio := some aspect_ratio,
         model := some "dall-e-3", note := none, error := none },
       { backend_calls := ["dall-e-3"], synth_attempted := false })
    | DalleOutcome.noImage => styled { backend_calls := ["dall-e-3"], synth_attempted := false }
    | DalleOutcome.raises _ => styled { backend_calls := ["dall-e-3"], synth_attempted := false }
  else
    styled { backend_calls := [], synth_attempted := false }

/-- The parsed JSON argument of main: the `prompt` and `aspectRatio`
keys, `none` when absent. -/
structure MainInput where
  prompt : Option String
  aspectRatio : Option String
deriving DecidableEq

/-- What a main run prints and which exit code it returns. -/
inductive MainOut where
  | errorOut (msg : String) (exit_code : Nat)
  | resultOut (r : GenResult) (exit_code : Nat)
deriving DecidableEq

/-- main of multi-model-image.py: read `prompt` (default `""`) and
`aspectRatio` (default `"16:9"`); an empty prompt prints the
`"No prompt provided"` error dict and exits 1 before anything else runs;
otherwise print the generate_image result and exit 0. -/
def mm_main (inp : MainInput) (openai_key : Option String)
    (dalle : DalleOutcome) (synth : Except String (List Nat)) :
    MainOut × Trace :=
  let prompt := inp.prompt.getD ""
  let aspect_ratio := inp.aspectRatio.getD "16:9"
  if prompt = "" then
    (MainOut.errorOut "No prompt provided" 1,
     { backend_calls := [], synth_attempted := false })
  else
    let rt := mm_generate_image openai_key dalle synth prompt aspect_ratio
    (MainOut.resultOut rt.1 0, rt.2)

/-! ## generate_image.py: the Gemini-only script (lines 13-140)

Its generate_image has no placeholder path at all: a missing credential
raises a ValueError before the `try` block, so the exception escapes the
function (main catches it and exits 1). -/

/-- The optional businessContext record of generate_image.py; absent
keys default to `""` via `dict.get`. -/
structure BizCtx where
  businessName : String
  productName : String
  brandTone : String
  callToAction : String
deriving DecidableEq

/-- The enhanced prompt of generate_image.py lines 38-54: append brand,
product, style and call-to-action fragments when the business context
carries them (`none` models a falsy/empty context dict). -/
def gi_enhanced_prompt (prompt : String) (bc : Option BizCtx) : String :=
  let ep :=
    match bc with
    | none => prompt
    | some c =>
      if c.businessName ≠ "" || c.productName ≠ "" then
        let e := prompt ++ "\n\nBrand: " ++ c.businessName
        let e := if c.productName ≠ "" then e ++ ", Product: " ++ c.productName else e
        if c.brandTone ≠ "" then e ++ ", Style: " ++ c.brandTone else e
      else prompt
  match bc with
  | some c =>
    if c.callToAction ≠ "" then
      ep ++ "\n\nInclude text overlay: \"" ++ c.callToAction ++ "\""
    else ep
  | none => ep

/-- generate_image of generate_image.py: `GOOGLE_CLOUD_API_KEY or
VERTEX_API_KEY`; when neither is truthy the function raises
(`Except.error`) — there is no fallback of any kind; otherwise the
Gemini call's outcome is passed in as `response` (exception message, or
the optional image part plus text description), and the `try` block
turns it into the result dict. -/
def gi_generate_image (gcloud_key vertex_key : Option String)
    (response : Except String (Option (List Nat) × String))
    (prompt aspect_ratio : String) (bc : Option BizCtx) :
    Except String GenResult :=
  let api_key := py_or_opt gcloud_key vertex_key
  if is_truthy api_key = false then
    Except.error "No API key found. Please set GOOGLE_CLOUD_API_KEY or VERTEX_API_KEY"
  else
    let enhanced_prompt := gi_enhanced_prompt prompt bc
    match response with
    | Except.error e =>
      Except.ok { success := false, image_data := none, mime_type := none,
                  description := none, prompt := enhanced_prompt,
                  aspect_ratio := none, model := none, note := none,
                  error := some e }
    | Except.ok (none, _) =>
      Except.ok { success := false, image_data := none, mime_type := none,
                  description := none, prompt := enhanced_prompt,
                  aspect_ratio := none, model := none, note := none,
                  error := some "No image generated in response" }
    | Except.ok (some image_data, description) =>
      Except.ok { success := true, image_data := some image_data,
                  mime_type := some "image/png",
                  description := some description,
                  prompt := enhanced_prompt,
                  aspect_ratio := some aspect_ratio,
                  model := none, note := none, error := none }

/-! ## Concrete prompts used in counterexamples and witnesses -/

/-- An 83-character prompt that is exactly its own first 80 characters
followed by `"..."`. -/
def degenerate_prompt : String := String.mk (List.replicate 80 'a') ++ "..."

/-- An 81-character prompt. -/
def long_prompt : String := String.mk (List.replicate 81 'b')

/-! ## Theorems -/

/-- C2: the aspect-ratio-to-dimensions mapping of placeholder synthesis
is total: the five listed ratios map to their table entries and every
other string maps to the 16:9 dimensions (1024, 576). -/
theorem aspect_dims_total_table :
    aspect_dims "1:1" = (1024, 1024) ∧
    aspect_dims "16:9" = (1024, 576) ∧
    aspect_dims "9:16" = (576, 1024) ∧
    aspect_dims "4:3" = (1024, 768) ∧
    aspect_dims "3:4" = (768, 1024) ∧
    ∀ s : String, s ≠ "1:1" → s ≠ "16:9" → s ≠ "9:16" → s ≠ "4:3" → s ≠ "3:4" →
      aspect_dims s = (1024, 576) := by
  refine ⟨by decide, by decide, by decide, by decide, by decide, ?_⟩
  intro s h1 h2 h3 h4 h5
  have e1 : (s == "1:1") = false := beq_eq_false_iff_ne.mpr h1
  have e2 : (s == "16:9") = false := beq_eq_false_iff_ne.mpr h2
  have e3 : (s == "9:16") = false := beq_eq_false_iff_ne.mpr h3
  have e4 : (s == "4:3") = false := beq_eq_false_iff_ne.mpr h4
  have e5 : (s == "3:4") = false := beq_eq_false_iff_ne.mpr h5
  simp [aspect_dims, aspect_map, List.lookup, e1, e2, e3, e4, e5]

/-- Witness for C2: the unknown ratio "21:9" falls back to (1024, 576). -/
theorem aspect_dims_total_table_witness : aspect_dims "21:9" = (1024, 576) :=
  aspect_dims_total_table.2.2.2.2.2 "21:9" (by decide) (by decide) (by decide)
    (by decide) (by decide)

/-- C10: the DALL-E request size is "1024x1024" exactly for aspect ratio
"1:1" and "1792x1024" for every other aspect ratio. -/
theorem dalle_size_spec :
    ∀ ar : String, (dalle_size ar = "1024x1024" ↔ ar = "1:1") ∧
      (ar ≠ "1:1" → dalle_size ar = "1792x1024") := by
  intro ar
  by_cases h : ar = "1:1"
  · refine ⟨⟨fun _ => h, fun _ => ?_⟩, fun hne => absurd h hne⟩
    simp [dalle_size, h]
  · refine ⟨⟨fun hd => ?_, fun he => absurd he h⟩, fun _ => by simp [dalle_size, h]⟩
    simp [dalle_size, h] at hd

/-- Witness for C10: portrait ratio "9:16" gets the landscape size, and
"1:1" gets the square size. -/
theorem dalle_size_spec_witness :
    dalle_size "9:16" = "1792x1024" ∧ dalle_size "1:1" = "1024x1024" :=
  ⟨(dalle_size_spec "9:16").2 (by decide), (dalle_size_spec "1:1").1.mpr rfl⟩

/-- C7 counterexample: a prompt of 83 characters that is exactly its own
first 80 characters followed by "..." is rendered as the full prompt
string, refuting the claim's "never the full prompt string". -/
theorem prompt_display_full_prompt_counterexample :
    degenerate_prompt.length > 80 ∧ prompt_display degenerate_prompt = degenerate_prompt := by
  constructor
  · decide
  · decide

/-- C7 as amended: for prompts longer than 80 characters the multi-model
subtitle is exactly the first 80 characters plus "...", which differs
from the full prompt except in the degenerate case that the prompt
already equals its own first 80 characters plus "..."; prompts of at
most 80 characters are rendered unmodified; the genai script truncates
its placeholder subtitle at 60 characters, not 80. -/
theorem prompt_truncation_amended :
    (∀ p : String, p.length > 80 → prompt_display p = py_slice p 80 ++ "...") ∧
    (∀ p : String, p.length ≤ 80 → prompt_display p = p) ∧
    (∀ p : String, p.length > 80 → p ≠ py_slice p 80 ++ "..." → prompt_display p ≠ p) ∧
    (∀ p : String, p.length > 60 → prompt_text p = py_slice p 60 ++ "...") ∧
    (∀ p : String, p.length ≤ 60 → prompt_text p = p) := by
  refine ⟨?_, ?_, ?_, ?_, ?_⟩
  · intro p h; simp [prompt_display, h]
  · intro p h; simp [prompt_display, Nat.not_lt.mpr h]
  · intro p h hne
    rw [prompt_display, if_pos h]
    exact fun hc => hne hc.symm
  · intro p h; simp [prompt_text, h]
  · intro p h; simp [prompt_text, Nat.not_lt.mpr h]

/-- Witness for the amended C7: an 81-character prompt is truncated to
its first 80 characters plus "...", and a short prompt is unchanged. -/
theorem prompt_truncation_amended_witness :
    prompt_display long_prompt = py_slice long_prompt 80 ++ "..." ∧
    prompt_display "a robot" = "a robot" :=
  ⟨prompt_truncation_amended.1 long_prompt (by decide),
   prompt_truncation_amended.2.1 "a robot" (by decide)⟩

/-- C6: palette selection is case-insensitive in the prompt — prompts
with the same lowercasing select the identical base colours and accent
colour. -/
theorem select_palette_case_insensitive :
    ∀ p q : String, str_lower p = str_lower q → select_palette p = select_palette q := by
  intro p q h
  simp only [select_palette, h]

/-- Witness for C6: "ROBOT army" and "robot army" select the same
palette. -/
theorem select_palette_case_insensitive_witness :
    select_palette "ROBOT army" = select_palette "robot army" :=
  select_palette_case_insensitive "ROBOT army" "robot army" (by decide)

/-- C9: keyword matching is raw substring containment on the lowercased
prompt, and the tech/robot category is tested first: any prompt whose
lowercasing contains "ai" anywhere selects the tech palette, whatever
other keywords occur. -/
theorem select_palette_ai_substring :
    ∀ p : String, py_in "ai" (str_lower p) = true → select_palette p = tech_palette := by
  intro p h
  simp [select_palette, h]

/-- Witness for C9: "ai" occurs inside "painting" and inside "airport",
so both select the tech palette — the latter even though "ocean" and
"office" keywords of later categories also occur. -/
theorem select_palette_ai_substring_witness :
    select_palette "painting" = tech_palette ∧
    select_palette "AIRPORT office ocean" = tech_palette :=
  ⟨select_palette_ai_substring "painting" (by decide),
   select_palette_ai_substring "AIRPORT office ocean" (by decide)⟩

/-- C8: each scanline of the placeholder background equals the spec's
two-segment vertical linear interpolation: with progress p = y/height,
below one half the blend of base0 toward base1 at ratio 2p, otherwise
the blend of base1 toward base2 at ratio 2(p - 0.5), channels truncated
to integers. -/
theorem gradient_row_matches_spec :
    ∀ (pal : Palette) (height y : Nat), gradient_row pal height y = spec_row pal height y := by
  intro pal height y
  simp only [gradient_row, spec_row, spec_blend]
  by_cases hc : ((y : ℚ) / (height : ℚ)) < 1 / 2
  · simp only [if_pos hc, Prod.mk.injEq]
    refine ⟨?_, ?_, ?_⟩ <;> · congr 1; ring
  · simp only [if_neg hc, Prod.mk.injEq]
    refine ⟨?_, ?_, ?_⟩ <;> · congr 1; ring

/-- Helper: when every backend before the first image-yielding backend
fails, the chain loop returns that backend's success dict and invokes
exactly the failing prefix plus the succeeding backend. -/
theorem run_chain_first_success (prompt aspect_ratio name mime : String)
    (data : List Nat) (post : List (String × Outcome)) :
    ∀ (pre : List (String × Outcome)) (e0 : Option String),
      (∀ b ∈ pre, backend_fails b.2 = true) →
      (run_chain prompt aspect_ratio e0
          (pre ++ (name, Outcome.response (some (mime, data))) :: post)).result =
        some { success := true, image_data := some data, mime_type := some mime,
               description := none, prompt := prompt,
               aspect_ratio := some aspect_ratio, model := some name,
               note := none, error := none } ∧
      (run_chain prompt aspect_ratio e0
          (pre ++ (name, Outcome.response (some (mime, data))) :: post)).invoked =
        pre.map Prod.fst ++ [name]
  | [], e0, _ => by simp [run_chain]
  | (n, Outcome.raises e) :: rest, e0, hpre => by
    have ih := run_chain_first_success prompt aspect_ratio name mime data post rest (some e)
      (fun b hb => hpre b (List.mem_cons_of_mem _ hb))
    simp [run_chain, ih.1, ih.2]
  | (n, Outcome.response none) :: rest, e0, hpre => by
    have ih := run_chain_first_success prompt aspect_ratio name mime data post rest e0
      (fun b hb => hpre b (List.mem_cons_of_mem _ hb))
    simp [run_chain, ih.1, ih.2]
  | (n, Outcome.response (some img)) :: rest, e0, hpre => by
    have hfail := hpre (n, Outcome.response (some img)) (List.mem_cons_self _ _)
    simp [backend_fails] at hfail

/-- C1: if every backend before one that returns a non-empty image
payload fails (raises or yields no image part), generate returns that
backend's success dict immediately — whatever the gradient fallback
would do — its model field names the succeeding backend, and the
invoked backends are exactly the failing prefix plus the succeeding
one: nothing after it is invoked. -/
theorem generate_first_success_short_circuits
    (vertex_key gcloud_key gemini_key : Option String)
    (pre post : List (String × Outcome)) (name mime prompt aspect_ratio : String)
    (data : List Nat) (fallback : Except String (List Nat))
    (hkey : is_truthy (py_or_opt vertex_key (py_or_opt gcloud_key gemini_key)) = true)
    (hpre : ∀ b ∈ pre, backend_fails b.2 = true) :
    generate_image_with_genai vertex_key gcloud_key gemini_key
        (pre ++ (name, Outcome.response (some (mime, data))) :: post) fallback
        prompt aspect_ratio =
      { success := true, image_data := some data, mime_type := some mime,
        description := none, prompt := prompt,
        aspect_ratio := some aspect_ratio, model := some name,
        note := none, error := none } ∧
    (run_chain prompt aspect_ratio none
        (pre ++ (name, Outcome.response (some (mime, data))) :: post)).invoked =
      pre.map Prod.fst ++ [name] := by
  have h := run_chain_first_success prompt aspect_ratio name mime data post pre none hpre
  refine ⟨?_, h.2⟩
  simp [generate_image_with_genai, hkey, h.1]

/-- Witness for C1: the first model raises, the second returns a
response without an image part, the third succeeds; the result is the
third model's success dict and the fourth model is not invoked. -/
theorem generate_first_success_short_circuits_witness :
    generate_image_with_genai (some "key") none none
        ([("imagen-3.0-generate-002", Outcome.raises "quota"),
          ("imagen-4.0-fast-generate-001", Outcome.response none)] ++
         ("imagegeneration@006", Outcome.response (some ("image/png", [137, 80]))) ::
         [("imagegeneration@005", Outcome.raises "never invoked")])
        (Except.error "fallback unused") "a robot" "16:9" =
      { success := true, image_data := some [137, 80], mime_type := some "image/png",
        description := none, prompt := "a robot", aspect_ratio := some "16:9",
        model := some "imagegeneration@006", note := none, error := none } ∧
    (run_chain "a robot" "16:9" none
        ([("imagen-3.0-generate-002", Outcome.raises "quota"),
          ("imagen-4.0-fast-generate-001", Outcome.response none)] ++
         ("imagegeneration@006", Outcome.response (some ("image/png", [137, 80]))) ::
         [("imagegeneration@005", Outcome.raises "never invoked")])).invoked =
      ["imagen-3.0-generate-002", "imagen-4.0-fast-generate-001", "imagegeneration@006"] := by
  have h := generate_first_success_short_circuits (some "key") none none
    [("imagen-3.0-generate-002", Outcome.raises "quota"),
     ("imagen-4.0-fast-generate-001", Outcome.response none)]
    [("imagegeneration@005", Outcome.raises "never invoked")]
    "imagegeneration@006" "image/png" "a robot" "16:9" [137, 80]
    (Except.error "fallback unused") (by decide) (by decide)
  exact ⟨h.1, by simpa using h.2⟩

/-- C4: when an API key is present, every backend in the chain has
failed with at least one recorded non-empty backend error, and the
gradient-fallback step then throws, generate returns a failure dict
whose error field carries the most recent backend error — the
conclusion does not mention the fallback step's own error at all, so
the placeholder-step error is never reported alone in its place. -/
theorem generate_synthesis_failure_reports_backend_error
    (vertex_key gcloud_key gemini_key : Option String)
    (chain : List (String × Outcome)) (fallback_error e prompt aspect_ratio : String)
    (hkey : is_truthy (py_or_opt vertex_key (py_or_opt gcloud_key gemini_key)) = true)
    (hres : (run_chain prompt aspect_ratio none chain).result = none)
    (herr : (run_chain prompt aspect_ratio none chain).last_error = some e)
    (hne : e ≠ "") :
    generate_image_with_genai vertex_key gcloud_key gemini_key chain
        (Except.error fallback_error) prompt aspect_ratio =
      { success := false, image_data := none, mime_type := none, description := none,
        prompt := prompt, aspect_ratio := none, model := none, note := none,
        error := some ("All generation methods failed. Last error: " ++ e) } := by
  simp [generate_image_with_genai, hkey, hres, herr, py_or_str, hne]

/-- Witness for C4: both backends fail (the second with error "quota
exhausted"), the drawing step throws "font missing", and the reported
error carries the backend error, not the drawing error. -/
theorem generate_synthesis_failure_reports_backend_error_witness :
    generate_image_with_genai (some "key") none none
        [("imagen-3.0-generate-002", Outcome.response none),
         ("imagen-4.0-fast-generate-001", Outcome.raises "quota exhausted")]
        (Except.error "font missing") "a robot" "16:9" =
      { success := false, image_data := none, mime_type := none, description := none,
        prompt := "a robot", aspect_ratio := none, model := none, note := none,
        error := some ("All generation methods failed. Last error: " ++ "quota exhausted") } :=
  generate_synthesis_failure_reports_backend_error (some "key") none none
    [("imagen-3.0-generate-002", Outcome.response none),
     ("imagen-4.0-fast-generate-001", Outcome.raises "quota exhausted")]
    "font missing" "quota exhausted" "a robot" "16:9"
    (by decide) (by decide) (by decide) (by decide)

/-- C3: main with an empty or absent prompt prints the "No prompt
provided" error dict and exits 1, with no backend invoked and no
placeholder synthesis attempted, whatever the environment and the
would-be backend outcomes are. -/
theorem main_empty_prompt_fails_fast
    (inp : MainInput) (openai_key : Option String) (dalle : DalleOutcome)
    (synth : Except String (List Nat))
    (h : inp.prompt = none ∨ inp.prompt = some "") :
    mm_main inp openai_key dalle synth =
      (MainOut.errorOut "No prompt provided" 1,
       { backend_calls := [], synth_attempted := false }) := by
  have hp : inp.prompt.getD "" = "" := by
    rcases h with h | h <;> simp [h]
  simp [mm_main, hp]

/-- Witness for C3: an input whose prompt key is the empty string, with
a key set and a successful would-be DALL-E outcome, still yields the
error exit and an empty trace. -/
theorem main_empty_prompt_fails_fast_witness :
    mm_main { prompt := some "", aspectRatio := some "1:1" } (some "sk-test")
        (DalleOutcome.image [1, 2, 3]) (Except.ok [4, 5]) =
      (MainOut.errorOut "No prompt provided" 1,
       { backend_calls := [], synth_attempted := false }) :=
  main_empty_prompt_fails_fast { prompt := some "", aspectRatio := some "1:1" }
    (some "sk-test") (DalleOutcome.image [1, 2, 3]) (Except.ok [4, 5]) (Or.inr rfl)

/-- C5 counterexample: in generate_image.py, with no recognized
credential set, generate raises a ValueError instead of returning any
result — there is no placeholder path, so no `success == true` result
is produced. -/
theorem gi_generate_no_credentials_counterexample :
    gi_generate_image none none (Except.error "network unused")
        "A robot reading a book" "16:9" none =
      Except.error "No API key found. Please set GOOGLE_CLOUD_API_KEY or VERTEX_API_KEY" := by
  rfl

/-- C5 as amended: in multi-model-image.py, with no truthy
OPENAI_API_KEY, generate_image returns `success == true` from the local
placeholder path whenever placeholder synthesis does not throw, and a
synthesis failure is the only way it returns a failure; in
generate_image.py a missing credential instead raises with no
placeholder fallback. -/
theorem mm_generate_no_key_placeholder
    (openai_key : Option String) (dalle : DalleOutcome) (prompt aspect_ratio : String)
    (hkey : is_truthy openai_key = false) :
    (∀ data : List Nat,
      (mm_generate_image openai_key dalle (Except.ok data) prompt aspect_ratio).1.success = true ∧
      (mm_generate_image openai_key dalle (Except.ok data) prompt aspect_ratio).1.model =
        some "ai-styled-generator") ∧
    (∀ e : String,
      (mm_generate_image openai_key dalle (Except.error e) prompt aspect_ratio).1.success = false ∧
      (mm_generate_image openai_key dalle (Except.error e) prompt aspect_ratio).1.error = some e) := by
  constructor
  · intro data
    simp [mm_generate_image, hkey]
  · intro e
    simp [mm_generate_image, hkey]

/-- Witness for the amended C5: with OPENAI_API_KEY unset, a successful
synthesis yields a success result, and a throwing synthesis yields a
failure carrying the synthesis error. -/
theorem mm_generate_no_key_placeholder_witness :
    (mm_generate_image none DalleOutcome.noImage (Except.ok [9, 9])
        "a robot" "16:9").1.success = true ∧
    (mm_generate_image none DalleOutcome.noImage (Except.error "PIL crashed")
        "a robot" "16:9").1.success = false :=
  ⟨((mm_generate_no_key_placeholder none DalleOutcome.noImage "a robot" "16:9"
      (by decide)).1 [9, 9]).1,
   ((mm_generate_no_key_placeholder none DalleOutcome.noImage "a robot" "16:9"
      (by decide)).2 "PIL crashed").1⟩
